import Mathlib

/-!
Shallow embedding of the CodeBloom Flask backend (`src/backend/app.py`):
the authentication data model (`User`), the session-scoped rate limiter
(`rate_limit`), and the three authentication route handlers (`register`,
`login`, `verify_mfa`), together with `chat` and `logout` as far as the
claims need them.

Modelling conventions:
* `datetime.utcnow()` is a `Nat` number of minutes; `timedelta(minutes=k)`
  comparisons `a - b < timedelta(k)` / `a - b > timedelta(k)` are rendered
  as `a < b + k` / `a > b + k`, which agree with Python's signed-timedelta
  semantics for all `Nat` values of `a` and `b`.
* `bcrypt` is modelled ideally: a hash records the salt and the password it
  was derived from, and `checkpw` re-hashes with the stored salt and
  compares, exactly the shape of `bcrypt.checkpw`; hash collisions are
  abstracted away.
* Random generation (`bcrypt.gensalt()`, `secrets.token_hex(16)`) and the
  outcome of `mail.send` are oracle inputs threaded into each handler.
* An uncaught Python exception (a `KeyError` on a missing JSON key, or an
  exception escaping `mail.send`) is the `Resp.raised` constructor: Flask
  would turn it into a 500 response, not a structured JSON error.
* The SQLAlchemy table of `User` rows is a `List User`;
  `User.query.filter_by(email=e).first()` is `find_by_email`, and the
  mutate-then-`db.session.commit()` pattern is `update_user`, which
  replaces the row with the matching (unique) email.
-/

namespace CodeBloom

/-- Idealized bcrypt digest: `bcrypt.hashpw` embeds the salt in the digest,
and `bcrypt.checkpw` re-hashes the candidate password with that salt and
compares digests. -/
structure PasswordHash where
  salt : String
  password : String
deriving DecidableEq, Repr

/-- `bcrypt.hashpw(password, salt)` from `User.set_password`. -/
def hashpw (password salt : String) : PasswordHash :=
  { salt := salt, password := password }

/-- `bcrypt.checkpw(password, stored)` from `User.check_password`. -/
def checkpw (password : String) (stored : PasswordHash) : Bool :=
  hashpw password stored.salt == stored

/-- The `User` model (app.py lines 59-66). `last_login_attempt` is nullable,
as in the source, and times are minutes. -/
structure User where
  email : String
  password_hash : PasswordHash
  mfa_secret : String
  is_verified : Bool
  mfa_attempts : Nat
  last_login_attempt : Option Nat
deriving DecidableEq, Repr

/-- The users table. -/
abbrev Db := List User

/-- `User.query.filter_by(email=email).first()`. -/
def find_by_email (db : Db) (email : String) : Option User :=
  db.find? (fun u => u.email == email)

/-- Committing a mutation of the (unique) row whose email matches `u.email`. -/
def update_user (db : Db) (u : User) : Db :=
  db.map (fun v => if v.email == u.email then u else v)

/-- An email handed to `mail.send`. -/
structure Mail where
  recipient : String
  body : String
deriving DecidableEq, Repr

/-- A handler outcome: a JSON response with an HTTP status, or an uncaught
exception propagating out of the handler (Flask would answer 500). -/
inductive Resp where
  | json (status : Nat) (body : String)
  | raised (exn : String)
deriving DecidableEq, Repr

/-- What one request to an auth handler produces: the table after all
commits, the user bound by `login_user` (if it was called), the messages
successfully handed to `mail.send`, and the response. -/
structure HandlerOut where
  db : Db
  session_user : Option String
  sent : List Mail
  resp : Resp
deriving DecidableEq, Repr

/-- A parsed JSON request body, as key/value pairs. -/
abbrev Body := List (String × String)

/-- `data[k]` lookup; `none` models the key being absent (Python raises
`KeyError` at the access site). -/
def getKey (body : Body) (k : String) : Option String :=
  (body.find? (fun p => p.1 == k)).map Prod.snd

/-- The nondeterministic inputs of one request: the bcrypt salt, the
`secrets.token_hex(16)` stored as `mfa_secret`, the separate
`secrets.token_hex(16)` used only inside `send_verification_email`
(never stored), and whether `mail.send` succeeds. -/
structure Oracles where
  salt : String
  token : String
  vtoken : String
  send_ok : Bool
deriving DecidableEq, Repr

/-- The `/api/register` handler body (app.py lines 100-116), after the
`rate_limit` decorator has admitted the request. -/
def register (db : Db) (body : Body) (o : Oracles) : HandlerOut :=
  match getKey body "email" with
  | none => ⟨db, none, [], .raised "KeyError: email"⟩
  | some email =>
    if (find_by_email db email).isSome then
      ⟨db, none, [], .json 400 "Email already registered"⟩
    else
      match getKey body "password" with
      | none => ⟨db, none, [], .raised "KeyError: password"⟩
      | some password =>
        let user : User :=
          { email := email
            password_hash := hashpw password o.salt
            mfa_secret := o.token
            is_verified := false
            mfa_attempts := 0
            last_login_attempt := none }
        let db' := db ++ [user]
        if o.send_ok then
          ⟨db', none,
            [⟨email, "Click here to verify your account: /verify/" ++ o.vtoken⟩],
            .json 201 "Registration successful. Please check your email for verification."⟩
        else
          ⟨db', none, [], .raised "MailSendError"⟩

/-- The `/api/login` handler body (app.py lines 118-141), after the
`rate_limit` decorator has admitted the request. `now` is
`datetime.utcnow()` in minutes. -/
def login (db : Db) (body : Body) (now : Nat) (o : Oracles) : HandlerOut :=
  match getKey body "email" with
  | none => ⟨db, none, [], .raised "KeyError: email"⟩
  | some email =>
    match find_by_email db email with
    | none => ⟨db, none, [], .json 401 "Invalid credentials"⟩
    | some user =>
      match getKey body "password" with
      | none => ⟨db, none, [], .raised "KeyError: password"⟩
      | some password =>
        if checkpw password user.password_hash then
          if user.is_verified = false then
            ⟨db, none, [], .json 401 "Please verify your email first"⟩
          else
            match
              (if 3 ≤ user.mfa_attempts then
                match user.last_login_attempt with
                | some last =>
                  if now < last + 15 then none
                  else some { user with mfa_attempts := 0 }
                | none => some user
              else some user : Option User)
            with
            | none =>
              ⟨db, none, [], .json 429 "Account temporarily locked. Please try again later."⟩
            | some u1 =>
              let u2 := { u1 with mfa_secret := o.token, last_login_attempt := some now }
              let db' := update_user db u2
              if o.send_ok then
                ⟨db', none, [⟨email, "Your MFA code is: " ++ o.token⟩],
                  .json 200 "MFA code sent to your email"⟩
              else
                ⟨db', none, [], .raised "MailSendError"⟩
        else
          ⟨db, none, [], .json 401 "Invalid credentials"⟩

/-- The `/api/verify-mfa` handler body (app.py lines 143-163), after the
`rate_limit` decorator has admitted the request. Note that the source
consults no clock here: the `mfa_attempts >= 3` guard is checked without
any cooldown test. -/
def verify_mfa (db : Db) (body : Body) : HandlerOut :=
  match getKey body "email" with
  | none => ⟨db, none, [], .raised "KeyError: email"⟩
  | some email =>
    match find_by_email db email with
    | none => ⟨db, none, [], .json 404 "User not found"⟩
    | some user =>
      if 3 ≤ user.mfa_attempts then
        ⟨db, none, [], .json 429 "Too many failed attempts. Please try logging in again."⟩
      else
        match getKey body "mfa_code" with
        | none => ⟨db, none, [], .raised "KeyError: mfa_code"⟩
        | some code =>
          if code == user.mfa_secret then
            ⟨update_user db { user with mfa_attempts := 0 }, some email, [],
              .json 200 "Login successful"⟩
          else
            ⟨update_user db { user with mfa_attempts := user.mfa_attempts + 1 }, none, [],
              .json 401 "Invalid MFA code"⟩

/-- The per-session rate-limit window: `session['login_attempts']` and
`session['login_reset_time']` (app.py lines 79-86). -/
structure RateLimitWindow where
  login_attempts : Nat
  login_reset_time : Nat
deriving DecidableEq, Repr

/-- The `rate_limit(max_attempts=5, window_minutes=15)` decorator logic
(app.py lines 75-94): initialize the window on first use, lazily reset it
when more than `window_minutes` have elapsed, reject without incrementing
at `max_attempts`, otherwise increment and admit. Returns the updated
session window and whether the wrapped handler runs. -/
def rate_limit (max_attempts window_minutes now : Nat)
    (s : Option RateLimitWindow) : RateLimitWindow × Bool :=
  let st := s.getD { login_attempts := 0, login_reset_time := now }
  let st :=
    if st.login_reset_time + window_minutes < now then
      { login_attempts := 0, login_reset_time := now }
    else st
  if max_attempts ≤ st.login_attempts then
    (st, false)
  else
    ({ st with login_attempts := st.login_attempts + 1 }, true)

/-- Run a sequence of requests through the rate limiter at the given
timestamps, collecting for each whether it was admitted. -/
def rl_run (max_attempts window_minutes : Nat) :
    List Nat → Option RateLimitWindow → Option RateLimitWindow × List Bool
  | [], s => (s, [])
  | now :: rest, s =>
    let p := rate_limit max_attempts window_minutes now s
    let q := rl_run max_attempts window_minutes rest (some p.1)
    (q.1, p.2 :: q.2)

/-- The HTTP surface of app.py: one constructor per route. The source has
no email-verification route (`/verify/<token>` is mentioned only inside the
email body and is not served). -/
inductive ApiOp where
  | register (body : Body)
  | login (body : Body)
  | verifyMfa (body : Body)
  | chat (body : Body)
  | logout
deriving DecidableEq, Repr

/-- Whole-backend state: the users table, the session's shared rate-limit
window (the same one for register/login/verify-mfa), and the flask-login
current user. -/
structure Sys where
  db : Db
  rl : Option RateLimitWindow
  current_user : Option String
deriving DecidableEq, Repr

/-- One request against the whole API. The three auth routes are wrapped in
`rate_limit()`; `chat` and `logout` are wrapped in `login_required`.
`model_loaded` is whether the inference model loaded at process start and
`gen_text` the generated reply (generation internals are out of scope). -/
def apiStep (now : Nat) (o : Oracles) (model_loaded : Bool) (gen_text : String)
    (s : Sys) (op : ApiOp) : Sys × Resp :=
  match op with
  | .register body =>
    let p := rate_limit 5 15 now s.rl
    if p.2 then
      let out := register s.db body o
      (⟨out.db, some p.1, s.current_user⟩, out.resp)
    else
      (⟨s.db, some p.1, s.current_user⟩, .json 429 "Too many attempts. Please try again later.")
  | .login body =>
    let p := rate_limit 5 15 now s.rl
    if p.2 then
      let out := login s.db body now o
      (⟨out.db, some p.1, s.current_user⟩, out.resp)
    else
      (⟨s.db, some p.1, s.current_user⟩, .json 429 "Too many attempts. Please try again later.")
  | .verifyMfa body =>
    let p := rate_limit 5 15 now s.rl
    if p.2 then
      let out := verify_mfa s.db body
      (⟨out.db, some p.1, out.session_user.orElse (fun _ => s.current_user)⟩, out.resp)
    else
      (⟨s.db, some p.1, s.current_user⟩, .json 429 "Too many attempts. Please try again later.")
  | .chat _ =>
    match s.current_user with
    | none => (s, .json 401 "Unauthorized")
    | some _ =>
      if model_loaded then (s, .json 200 gen_text)
      else (s, .json 503 "AI model not available")
  | .logout =>
    match s.current_user with
    | none => (s, .json 401 "Unauthorized")
    | some _ => (⟨s.db, s.rl, none⟩, .json 200 "Logged out successfully")

/-- A concrete verified user, used to instantiate theorems. -/
def uFix : User :=
  { email := "b@x.com"
    password_hash := hashpw "pw" "s1"
    mfa_secret := "sec"
    is_verified := true
    mfa_attempts := 0
    last_login_attempt := some 0 }

/-- The same user after three failed MFA submissions. -/
def uLocked : User := { uFix with mfa_attempts := 3 }

/-- A verified user with three failed MFA submissions who has never passed
a password login, so `last_login_attempt` is still null. -/
def uNoLast : User := { uLocked with last_login_attempt := none }

/-- A concrete oracle assignment, used to instantiate theorems. -/
def oFix : Oracles := { salt := "salt1", token := "tokA", vtoken := "vtok", send_ok := true }

/-- The same oracle assignment with a failing mail gateway. -/
def oFail : Oracles := { oFix with send_ok := false }

/-- The table after registering one fresh user through the handler. -/
def dReg : Db := (register [] [("email", "a@x.com"), ("password", "p1")] oFix).db

/-- The row that `dReg` holds. -/
def uReg : User :=
  { email := "a@x.com"
    password_hash := hashpw "p1" "salt1"
    mfa_secret := "tokA"
    is_verified := false
    mfa_attempts := 0
    last_login_attempt := none }

theorem getKey_cons_self (k v : String) (rest : Body) :
    getKey ((k, v) :: rest) k = some v := by
  simp [getKey, List.find?]

theorem getKey_cons_ne (k k' v : String) (rest : Body) (h : (k' == k) = false) :
    getKey ((k', v) :: rest) k = getKey rest k := by
  simp [getKey, List.find?, h]

theorem find_by_email_email {db : Db} {email : String} {u : User}
    (h : find_by_email db email = some u) : u.email = email := by
  have hp := List.find?_some h
  simpa using hp

theorem find_by_email_mem {db : Db} {email : String} {u : User}
    (h : find_by_email db email = some u) : u ∈ db :=
  List.mem_of_find?_eq_some h

theorem find_by_email_update (db : Db) {email : String} {u : User} (u' : User)
    (h : find_by_email db email = some u) (he : u'.email = u.email) :
    find_by_email (update_user db u') email = some u' := by
  have hue : u.email = email := find_by_email_email h
  induction db with
  | nil => simp [find_by_email] at h
  | cons x t ih =>
    by_cases hx : x.email = email
    · have hx' : (x.email == u'.email) = true := by
        simp [hx, he, hue]
      have hu' : (u'.email == email) = true := by
        simp [he, hue]
      simp [update_user, find_by_email, List.find?, hx', hu']
    · have hx' : (x.email == u'.email) = false := by
        simp [he, hue]
        exact hx
      have hxe : (x.email == email) = false := by
        simp [hx]
      have h' : find_by_email t email = some u := by
        simpa [find_by_email, List.find?, hxe] using h
      have := ih h'
      simpa [update_user, find_by_email, List.find?, hx', hxe] using this

theorem mem_update_user {v : User} {db : Db} {u : User}
    (h : v ∈ update_user db u) : v = u ∨ v ∈ db := by
  unfold update_user at h
  rcases List.mem_map.mp h with ⟨w, hw, hv⟩
  by_cases hb : (w.email == u.email) = true
  · rw [if_pos hb] at hv
    exact Or.inl hv.symm
  · rw [if_neg hb] at hv
    exact Or.inr (hv ▸ hw)

theorem getKey_pair (email code : String) :
    getKey [("email", email), ("mfa_code", code)] "email" = some email ∧
    getKey [("email", email), ("mfa_code", code)] "mfa_code" = some code := by
  refine ⟨getKey_cons_self _ _ _, ?_⟩
  rw [getKey_cons_ne _ _ _ _ (by decide)]
  exact getKey_cons_self _ _ _

theorem getKey_cred (email password : String) :
    getKey [("email", email), ("password", password)] "email" = some email ∧
    getKey [("email", email), ("password", password)] "password" = some password := by
  refine ⟨getKey_cons_self _ _ _, ?_⟩
  rw [getKey_cons_ne _ _ _ _ (by decide)]
  exact getKey_cons_self _ _ _

theorem verify_mfa_gen_correct (db : Db) (body : Body) (email : String) (user : User)
    (hk : getKey body "email" = some email)
    (hkc : getKey body "mfa_code" = some user.mfa_secret)
    (hf : find_by_email db email = some user)
    (ha : user.mfa_attempts < 3) :
    verify_mfa db body =
      ⟨update_user db { user with mfa_attempts := 0 }, some email, [],
        .json 200 "Login successful"⟩ := by
  have h3 : ¬ (3 ≤ user.mfa_attempts) := Nat.not_le.mpr ha
  simp [verify_mfa, hk, hkc, hf, h3]

theorem verify_mfa_gen_wrong (db : Db) (body : Body) (email code : String) (user : User)
    (hk : getKey body "email" = some email)
    (hkc : getKey body "mfa_code" = some code)
    (hf : find_by_email db email = some user)
    (ha : user.mfa_attempts < 3)
    (hc : code ≠ user.mfa_secret) :
    verify_mfa db body =
      ⟨update_user db { user with mfa_attempts := user.mfa_attempts + 1 }, none, [],
        .json 401 "Invalid MFA code"⟩ := by
  have h3 : ¬ (3 ≤ user.mfa_attempts) := Nat.not_le.mpr ha
  simp [verify_mfa, hk, hkc, hf, h3, hc]

theorem verify_mfa_gen_locked (db : Db) (body : Body) (email : String) (user : User)
    (hk : getKey body "email" = some email)
    (hf : find_by_email db email = some user)
    (ha : 3 ≤ user.mfa_attempts) :
    verify_mfa db body =
      ⟨db, none, [], .json 429 "Too many failed attempts. Please try logging in again."⟩ := by
  simp [verify_mfa, hk, hf, ha]

theorem verify_mfa_correct (db : Db) (email : String) (user : User)
    (hf : find_by_email db email = some user)
    (ha : user.mfa_attempts < 3) :
    verify_mfa db [("email", email), ("mfa_code", user.mfa_secret)] =
      ⟨update_user db { user with mfa_attempts := 0 }, some email, [],
        .json 200 "Login successful"⟩ :=
  verify_mfa_gen_correct db _ email user (getKey_pair _ _).1 (getKey_pair _ _).2 hf ha

theorem verify_mfa_wrong (db : Db) (email code : String) (user : User)
    (hf : find_by_email db email = some user)
    (ha : user.mfa_attempts < 3)
    (hc : code ≠ user.mfa_secret) :
    verify_mfa db [("email", email), ("mfa_code", code)] =
      ⟨update_user db { user with mfa_attempts := user.mfa_attempts + 1 }, none, [],
        .json 401 "Invalid MFA code"⟩ :=
  verify_mfa_gen_wrong db _ email code user (getKey_pair _ _).1 (getKey_pair _ _).2 hf ha hc

theorem verify_mfa_locked (db : Db) (email code : String) (user : User)
    (hf : find_by_email db email = some user)
    (ha : 3 ≤ user.mfa_attempts) :
    verify_mfa db [("email", email), ("mfa_code", code)] =
      ⟨db, none, [], .json 429 "Too many failed attempts. Please try logging in again."⟩ :=
  verify_mfa_gen_locked db _ email user (getKey_pair email code).1 hf ha

theorem find_by_email_append (db : Db) {email : String} (u : User)
    (h : find_by_email db email = none) (he : (u.email == email) = true) :
    find_by_email (db ++ [u]) email = some u := by
  unfold find_by_email at h ⊢
  induction db with
  | nil => simp [List.find?, he]
  | cons x t ih =>
    rw [List.cons_append]
    have hx : ¬ (fun u : User => u.email == email) x = true := by
      intro hb
      rw [List.find?_cons_of_pos t hb] at h
      exact Option.noConfusion h
    rw [List.find?_cons_of_neg (t ++ [u]) hx]
    rw [List.find?_cons_of_neg t hx] at h
    exact ih h

theorem register_fresh_db (db : Db) (body : Body) (email password : String) (o : Oracles)
    (hk : getKey body "email" = some email)
    (hkp : getKey body "password" = some password)
    (h : find_by_email db email = none) :
    (register db body o).db =
      db ++ [{ email := email, password_hash := hashpw password o.salt, mfa_secret := o.token,
               is_verified := false, mfa_attempts := 0, last_login_attempt := none }] := by
  cases hs : o.send_ok <;> simp [register, hk, hkp, h, hs]

theorem register_dup (db : Db) (body : Body) (email : String) (o : Oracles)
    (hk : getKey body "email" = some email)
    (h : (find_by_email db email).isSome = true) :
    register db body o = ⟨db, none, [], .json 400 "Email already registered"⟩ := by
  simp [register, hk, h]

theorem login_no_user (db : Db) (body : Body) (email : String) (now : Nat) (o : Oracles)
    (hk : getKey body "email" = some email)
    (h : find_by_email db email = none) :
    login db body now o = ⟨db, none, [], .json 401 "Invalid credentials"⟩ := by
  simp [login, hk, h]

theorem login_wrong_password (db : Db) (body : Body) (email password : String)
    (now : Nat) (o : Oracles) (user : User)
    (hk : getKey body "email" = some email)
    (hf : find_by_email db email = some user)
    (hkp : getKey body "password" = some password)
    (hp : checkpw password user.password_hash = false) :
    login db body now o = ⟨db, none, [], .json 401 "Invalid credentials"⟩ := by
  simp [login, hk, hf, hkp, hp]

theorem login_unverified (db : Db) (body : Body) (email password : String)
    (now : Nat) (o : Oracles) (user : User)
    (hk : getKey body "email" = some email)
    (hf : find_by_email db email = some user)
    (hkp : getKey body "password" = some password)
    (hp : checkpw password user.password_hash = true)
    (hv : user.is_verified = false) :
    login db body now o = ⟨db, none, [], .json 401 "Please verify your email first"⟩ := by
  simp [login, hk, hf, hkp, hp, hv]

theorem login_locked (db : Db) (body : Body) (email password : String)
    (now : Nat) (o : Oracles) (user : User) (last : Nat)
    (hk : getKey body "email" = some email)
    (hf : find_by_email db email = some user)
    (hkp : getKey body "password" = some password)
    (hp : checkpw password user.password_hash = true)
    (hv : user.is_verified = true)
    (ha : 3 ≤ user.mfa_attempts)
    (hl : user.last_login_attempt = some last)
    (ht : now < last + 15) :
    login db body now o =
      ⟨db, none, [], .json 429 "Account temporarily locked. Please try again later."⟩ := by
  simp [login, hk, hf, hkp, hp, hv, ha, hl, ht]

theorem login_issue_fresh (db : Db) (body : Body) (email password : String)
    (now : Nat) (o : Oracles) (user : User)
    (hk : getKey body "email" = some email)
    (hf : find_by_email db email = some user)
    (hkp : getKey body "password" = some password)
    (hp : checkpw password user.password_hash = true)
    (hv : user.is_verified = true)
    (ha : user.mfa_attempts < 3) :
    login db body now o =
      if o.send_ok then
        ⟨update_user db { user with mfa_secret := o.token, last_login_attempt := some now },
          none, [⟨email, "Your MFA code is: " ++ o.token⟩],
          .json 200 "MFA code sent to your email"⟩
      else
        ⟨update_user db { user with mfa_secret := o.token, last_login_attempt := some now },
          none, [], .raised "MailSendError"⟩ := by
  have h3 : ¬ (3 ≤ user.mfa_attempts) := Nat.not_le.mpr ha
  simp [login, hk, hf, hkp, hp, hv, h3]

theorem login_issue_lapsed (db : Db) (body : Body) (email password : String)
    (now : Nat) (o : Oracles) (user : User) (last : Nat)
    (hk : getKey body "email" = some email)
    (hf : find_by_email db email = some user)
    (hkp : getKey body "password" = some password)
    (hp : checkpw password user.password_hash = true)
    (hv : user.is_verified = true)
    (ha : 3 ≤ user.mfa_attempts)
    (hl : user.last_login_attempt = some last)
    (ht : ¬ now < last + 15) :
    login db body now o =
      if o.send_ok then
        ⟨update_user db
            { user with mfa_attempts := 0, mfa_secret := o.token, last_login_attempt := some now },
          none, [⟨email, "Your MFA code is: " ++ o.token⟩],
          .json 200 "MFA code sent to your email"⟩
      else
        ⟨update_user db
            { user with mfa_attempts := 0, mfa_secret := o.token, last_login_attempt := some now },
          none, [], .raised "MailSendError"⟩ := by
  simp [login, hk, hf, hkp, hp, hv, ha, hl, ht]

theorem login_issue_nolast (db : Db) (body : Body) (email password : String)
    (now : Nat) (o : Oracles) (user : User)
    (hk : getKey body "email" = some email)
    (hf : find_by_email db email = some user)
    (hkp : getKey body "password" = some password)
    (hp : checkpw password user.password_hash = true)
    (hv : user.is_verified = true)
    (ha : 3 ≤ user.mfa_attempts)
    (hl : user.last_login_attempt = none) :
    login db body now o =
      if o.send_ok then
        ⟨update_user db { user with mfa_secret := o.token, last_login_attempt := some now },
          none, [⟨email, "Your MFA code is: " ++ o.token⟩],
          .json 200 "MFA code sent to your email"⟩
      else
        ⟨update_user db { user with mfa_secret := o.token, last_login_attempt := some now },
          none, [], .raised "MailSendError"⟩ := by
  simp [login, hk, hf, hkp, hp, hv, ha, hl]

/-- **C4.** For every user with a pending code and fewer than 3 failed
attempts, submitting the correct code to `verify_mfa` returns Success
(`200 Login successful`), resets the attempt counter to 0 and binds the
session; submitting an incorrect code increments the counter by exactly 1,
changes nothing else about the user, and returns `401 Invalid MFA code`. -/
theorem claim_C4 (db : Db) (email code : String) (user : User)
    (hf : find_by_email db email = some user)
    (ha : user.mfa_attempts < 3) :
    (code = user.mfa_secret →
      verify_mfa db [("email", email), ("mfa_code", code)] =
        ⟨update_user db { user with mfa_attempts := 0 }, some email, [],
          .json 200 "Login successful"⟩) ∧
    (code ≠ user.mfa_secret →
      verify_mfa db [("email", email), ("mfa_code", code)] =
        ⟨update_user db { user with mfa_attempts := user.mfa_attempts + 1 }, none, [],
          .json 401 "Invalid MFA code"⟩) := by
  refine ⟨fun hc => ?_, fun hc => verify_mfa_wrong db email code user hf ha hc⟩
  subst hc
  exact verify_mfa_correct db email user hf ha

/-- Witness for C4 at a concrete user and database. -/
theorem claim_C4_witness :
    verify_mfa [uFix] [("email", "b@x.com"), ("mfa_code", "sec")] =
      ⟨update_user [uFix] { uFix with mfa_attempts := 0 }, some "b@x.com", [],
        .json 200 "Login successful"⟩ ∧
    verify_mfa [uFix] [("email", "b@x.com"), ("mfa_code", "zzz")] =
      ⟨update_user [uFix] { uFix with mfa_attempts := uFix.mfa_attempts + 1 }, none, [],
        .json 401 "Invalid MFA code"⟩ :=
  ⟨(claim_C4 [uFix] "b@x.com" "sec" uFix (by decide) (by decide)).1 (by decide),
   (claim_C4 [uFix] "b@x.com" "zzz" uFix (by decide) (by decide)).2 (by decide)⟩

/-- **C2 counterexample.** A user who registered and never completed any
password login is authenticated by `verify_mfa` when the stored (never
delivered) `mfa_secret` is submitted: the handler checks neither a
MFAPending state nor the verification flag, so the response is Success and
a session is bound — refuting "verify_mfa cannot return Success or bind an
authenticated session" for such users. -/
theorem claim_C2_counterexample :
    (verify_mfa dReg [("email", "a@x.com"), ("mfa_code", "tokA")]).resp =
      .json 200 "Login successful" ∧
    (verify_mfa dReg [("email", "a@x.com"), ("mfa_code", "tokA")]).session_user =
      some "a@x.com" := by
  decide

/-- **C2 (amended).** `verify_mfa` enforces no MFAPending requirement: for
every user present in the table with fewer than 3 failed attempts —
including one who registered but never completed a password login and is
still unverified — submitting the string stored as `mfa_secret` returns
Success and binds an authenticated session. -/
theorem claim_C2 (db : Db) (email : String) (user : User)
    (hf : find_by_email db email = some user)
    (ha : user.mfa_attempts < 3) :
    (verify_mfa db [("email", email), ("mfa_code", user.mfa_secret)]).resp =
      .json 200 "Login successful" ∧
    (verify_mfa db [("email", email), ("mfa_code", user.mfa_secret)]).session_user =
      some email := by
  rw [verify_mfa_correct db email user hf ha]
  exact ⟨rfl, rfl⟩

/-- Witness for C2 at the freshly registered, never-logged-in user. -/
theorem claim_C2_witness :
    (verify_mfa dReg [("email", "a@x.com"), ("mfa_code", uReg.mfa_secret)]).resp =
      .json 200 "Login successful" ∧
    (verify_mfa dReg [("email", "a@x.com"), ("mfa_code", uReg.mfa_secret)]).session_user =
      some "a@x.com" :=
  claim_C2 dReg "a@x.com" uReg (by decide) (by decide)

/-- **C3 counterexample.** The MFA secret is not single-use: after a code is
consumed by a successful `verify_mfa`, submitting the very same code again
succeeds again (the handler resets the attempt counter but never clears or
rotates `mfa_secret`). -/
theorem claim_C3_counterexample :
    (verify_mfa dReg [("email", "a@x.com"), ("mfa_code", "tokA")]).resp =
      .json 200 "Login successful" ∧
    (verify_mfa (verify_mfa dReg [("email", "a@x.com"), ("mfa_code", "tokA")]).db
        [("email", "a@x.com"), ("mfa_code", "tokA")]).resp =
      .json 200 "Login successful" := by
  decide

/-- **C3 (amended).** A successful verification resets the failed-attempt
counter to zero, but it does not consume the secret: the stored
`mfa_secret` is unchanged and the same code verifies successfully again
immediately afterwards (only a later `login` rotates the secret). -/
theorem claim_C3 (db : Db) (email : String) (user : User)
    (hf : find_by_email db email = some user)
    (ha : user.mfa_attempts < 3) :
    (find_by_email (verify_mfa db [("email", email), ("mfa_code", user.mfa_secret)]).db email =
      some { user with mfa_attempts := 0 }) ∧
    ((verify_mfa (verify_mfa db [("email", email), ("mfa_code", user.mfa_secret)]).db
        [("email", email), ("mfa_code", user.mfa_secret)]).resp =
      .json 200 "Login successful") := by
  rw [verify_mfa_correct db email user hf ha]
  have hf' : find_by_email (update_user db { user with mfa_attempts := 0 }) email =
      some { user with mfa_attempts := 0 } :=
    find_by_email_update db _ hf rfl
  refine ⟨hf', ?_⟩
  have := verify_mfa_correct (update_user db { user with mfa_attempts := 0 }) email
    { user with mfa_attempts := 0 } hf' (by simp)
  simp only [this]

/-- Witness for C3 at the freshly registered user. -/
theorem claim_C3_witness :
    (find_by_email (verify_mfa dReg [("email", "a@x.com"), ("mfa_code", uReg.mfa_secret)]).db
        "a@x.com" = some { uReg with mfa_attempts := 0 }) ∧
    ((verify_mfa (verify_mfa dReg [("email", "a@x.com"), ("mfa_code", uReg.mfa_secret)]).db
        [("email", "a@x.com"), ("mfa_code", uReg.mfa_secret)]).resp =
      .json 200 "Login successful") :=
  claim_C3 dReg "a@x.com" uReg (by decide) (by decide)

/-- **C5.** The rate limiter with `max_attempts = 5`, `window_minutes = 15`:
when strictly more than 15 minutes have elapsed since window start, the
window is reset before evaluating (so the request is admitted with count 1
and window start `now`); at 5 or more counted attempts inside the window
the request is rejected without incrementing; below the cap the count is
incremented and the request admitted. Concretely, of 6 requests within one
window from the same session the 6th is rejected, and the first request
after the window elapses is admitted again. -/
theorem claim_C5 (now : Nat) (st : RateLimitWindow) :
    (st.login_reset_time + 15 < now →
      rate_limit 5 15 now (some st) = (⟨1, now⟩, true)) ∧
    (¬ st.login_reset_time + 15 < now → 5 ≤ st.login_attempts →
      rate_limit 5 15 now (some st) = (st, false)) ∧
    (¬ st.login_reset_time + 15 < now → st.login_attempts < 5 →
      rate_limit 5 15 now (some st) =
        ({ st with login_attempts := st.login_attempts + 1 }, true)) ∧
    (rl_run 5 15 [0, 0, 0, 0, 0, 0] none).2 =
      [true, true, true, true, true, false] ∧
    (rl_run 5 15 [0, 0, 0, 0, 0, 0, 16] none).2 =
      [true, true, true, true, true, false, true] := by
  refine ⟨?_, ?_, ?_, by decide, by decide⟩
  · intro h
    simp [rate_limit, h]
  · intro h h5
    simp [rate_limit, h, h5]
  · intro h h5
    have h5' : ¬ 5 ≤ st.login_attempts := Nat.not_le.mpr h5
    simp [rate_limit, h, h5']

/-- Witness for C5: one instance of each branch of the rate limiter. -/
theorem claim_C5_witness :
    rate_limit 5 15 20 (some ⟨3, 4⟩) = (⟨1, 20⟩, true) ∧
    rate_limit 5 15 10 (some ⟨5, 0⟩) = (⟨5, 0⟩, false) ∧
    rate_limit 5 15 10 (some ⟨2, 0⟩) = (⟨3, 0⟩, true) :=
  ⟨(claim_C5 20 ⟨3, 4⟩).1 (by decide),
   (claim_C5 10 ⟨5, 0⟩).2.1 (by decide) (by decide),
   (claim_C5 10 ⟨2, 0⟩).2.2.1 (by decide) (by decide)⟩

/-- **C7.** Registering the same email twice: the second call returns
`400 Email already registered`, it leaves the table exactly as the first
call left it, and the record written by the first call (password hash with
its salt, MFA secret, unverified flag, zero counters) is intact. -/
theorem claim_C7 (db : Db) (email pw1 pw2 : String) (o1 o2 : Oracles)
    (h : find_by_email db email = none) :
    (register (register db [("email", email), ("password", pw1)] o1).db
        [("email", email), ("password", pw2)] o2).resp =
      .json 400 "Email already registered" ∧
    (register (register db [("email", email), ("password", pw1)] o1).db
        [("email", email), ("password", pw2)] o2).db =
      (register db [("email", email), ("password", pw1)] o1).db ∧
    find_by_email (register db [("email", email), ("password", pw1)] o1).db email =
      some { email := email, password_hash := hashpw pw1 o1.salt, mfa_secret := o1.token,
             is_verified := false, mfa_attempts := 0, last_login_attempt := none } := by
  have hu : find_by_email (register db [("email", email), ("password", pw1)] o1).db email =
      some { email := email, password_hash := hashpw pw1 o1.salt, mfa_secret := o1.token,
             is_verified := false, mfa_attempts := 0, last_login_attempt := none } := by
    rw [register_fresh_db db _ email pw1 o1 (getKey_cred _ _).1 (getKey_cred _ _).2 h]
    exact find_by_email_append db _ h (by simp)
  have hs : (find_by_email (register db [("email", email), ("password", pw1)] o1).db
      email).isSome = true := by
    rw [hu]
    rfl
  rw [register_dup _ _ email o2 (getKey_cred _ _).1 hs]
  exact ⟨rfl, rfl, hu⟩

/-- Witness for C7 on an empty table. -/
theorem claim_C7_witness :
    (register (register [] [("email", "a@x.com"), ("password", "p1")] oFix).db
        [("email", "a@x.com"), ("password", "p2")] oFix).resp =
      .json 400 "Email already registered" ∧
    (register (register [] [("email", "a@x.com"), ("password", "p1")] oFix).db
        [("email", "a@x.com"), ("password", "p2")] oFix).db =
      (register [] [("email", "a@x.com"), ("password", "p1")] oFix).db ∧
    find_by_email (register [] [("email", "a@x.com"), ("password", "p1")] oFix).db "a@x.com" =
      some { email := "a@x.com", password_hash := hashpw "p1" oFix.salt,
             mfa_secret := oFix.token, is_verified := false, mfa_attempts := 0,
             last_login_attempt := none } :=
  claim_C7 [] "a@x.com" "p1" "p2" oFix oFix (by decide)

/-- **C10 counterexample.** A request lacking a required key does not always
surface as a KeyError: a login request for an unknown email whose body has
no "password" key returns the structured `401 Invalid credentials` response,
because `user and user.check_password(data['password'])` short-circuits on
the falsy `user` before `data['password']` is evaluated. -/
theorem claim_C10_counterexample :
    login [] [("email", "ghost@x.com")] 0 oFix =
      ⟨[], none, [], .json 401 "Invalid credentials"⟩ := by
  decide

/-- **C10 (amended).** The handlers perform unguarded `data[...]` lookups,
so a missing key raises an uncaught KeyError exactly when execution reaches
the lookup: a missing "email" always raises in all three handlers; a
missing "password" raises in register only when the email is not already
taken, and in login only when a user with that email exists; a missing
"mfa_code" raises only when the user exists with fewer than 3 failed
attempts. On the remaining paths a structured response (400/401/404/429) is
returned before the missing key is read. -/
theorem claim_C10 (db : Db) (body : Body) (now : Nat) (o : Oracles) (email : String)
    (user : User) :
    (getKey body "email" = none →
      register db body o = ⟨db, none, [], .raised "KeyError: email"⟩ ∧
      login db body now o = ⟨db, none, [], .raised "KeyError: email"⟩ ∧
      verify_mfa db body = ⟨db, none, [], .raised "KeyError: email"⟩) ∧
    (getKey body "email" = some email → getKey body "password" = none →
      find_by_email db email = none →
      register db body o = ⟨db, none, [], .raised "KeyError: password"⟩ ∧
      login db body now o = ⟨db, none, [], .json 401 "Invalid credentials"⟩) ∧
    (getKey body "email" = some email → getKey body "password" = none →
      find_by_email db email = some user →
      register db body o = ⟨db, none, [], .json 400 "Email already registered"⟩ ∧
      login db body now o = ⟨db, none, [], .raised "KeyError: password"⟩) ∧
    (getKey body "email" = some email → getKey body "mfa_code" = none →
      find_by_email db email = some user → user.mfa_attempts < 3 →
      verify_mfa db body = ⟨db, none, [], .raised "KeyError: mfa_code"⟩) ∧
    (getKey body "email" = some email → find_by_email db email = none →
      verify_mfa db body = ⟨db, none, [], .json 404 "User not found"⟩) ∧
    (getKey body "email" = some email → find_by_email db email = some user →
      3 ≤ user.mfa_attempts →
      verify_mfa db body =
        ⟨db, none, [], .json 429 "Too many failed attempts. Please try logging in again."⟩) := by
  refine ⟨fun hk => ?_, fun hk hp hf => ?_, fun hk hp hf => ?_,
    fun hk hc hf ha => ?_, fun hk hf => ?_, fun hk hf ha => ?_⟩
  · exact ⟨by simp [register, hk], by simp [login, hk], by simp [verify_mfa, hk]⟩
  · exact ⟨by simp [register, hk, hp, hf], login_no_user db body email now o hk hf⟩
  · refine ⟨register_dup db body email o hk (by rw [hf]; rfl), ?_⟩
    simp [login, hk, hp, hf]
  · have h3 : ¬ (3 ≤ user.mfa_attempts) := Nat.not_le.mpr ha
    simp [verify_mfa, hk, hc, hf, h3]
  · simp [verify_mfa, hk, hf]
  · exact verify_mfa_gen_locked db body email user hk hf ha

/-- Witness for C10: each clause at a concrete database and body. -/
theorem claim_C10_witness :
    (register [] [] oFix = ⟨[], none, [], .raised "KeyError: email"⟩ ∧
      login [] [] 0 oFix = ⟨[], none, [], .raised "KeyError: email"⟩ ∧
      verify_mfa [] [] = ⟨[], none, [], .raised "KeyError: email"⟩) ∧
    register [] [("email", "a@x.com")] oFix =
      ⟨[], none, [], .raised "KeyError: password"⟩ ∧
    login dReg [("email", "a@x.com")] 0 oFix =
      ⟨dReg, none, [], .raised "KeyError: password"⟩ ∧
    register dReg [("email", "a@x.com")] oFix =
      ⟨dReg, none, [], .json 400 "Email already registered"⟩ ∧
    verify_mfa dReg [("email", "a@x.com")] =
      ⟨dReg, none, [], .raised "KeyError: mfa_code"⟩ ∧
    verify_mfa [] [("email", "a@x.com")] = ⟨[], none, [], .json 404 "User not found"⟩ :=
  ⟨(claim_C10 [] [] 0 oFix "a@x.com" uReg).1 (by decide),
   ((claim_C10 [] [("email", "a@x.com")] 0 oFix "a@x.com" uReg).2.1
      (by decide) (by decide) (by decide)).1,
   ((claim_C10 dReg [("email", "a@x.com")] 0 oFix "a@x.com" uReg).2.2.1
      (by decide) (by decide) (by decide)).2,
   ((claim_C10 dReg [("email", "a@x.com")] 0 oFix "a@x.com" uReg).2.2.1
      (by decide) (by decide) (by decide)).1,
   (claim_C10 dReg [("email", "a@x.com")] 0 oFix "a@x.com" uReg).2.2.2.1
      (by decide) (by decide) (by decide) (by decide),
   (claim_C10 [] [("email", "a@x.com")] 0 oFix "a@x.com" uReg).2.2.2.2.1
      (by decide) (by decide)⟩

/-- **C1 counterexample.** `uLocked` has 3 failed attempts and
`last_login_attempt = some 0`. `verify_mfa` takes no clock input at all
(app.py line 152 checks only `mfa_attempts >= 3`), so however much time has
elapsed since the last login attempt — in particular well beyond 15
minutes — the 4th submission with the correct code is still rejected with
429 and the attempt counter is not reset to 0. This refutes "this lockout
lasts until 15 minutes elapse from the user's last login attempt; once 15
minutes have elapsed, the attempt counter resets to 0 and the state reverts
to allow a fresh verification". -/
theorem claim_C1_counterexample :
    (verify_mfa [uLocked] [("email", "b@x.com"), ("mfa_code", "sec")]).resp =
      .json 429 "Too many failed attempts. Please try logging in again." ∧
    (verify_mfa [uLocked] [("email", "b@x.com"), ("mfa_code", "sec")]).db = [uLocked] := by
  decide

/-- **C1 (amended).** After exactly 3 consecutive invalid MFA submissions
the counter reaches 3 and the 4th submission (even with the correct code)
returns 429. The lockout is not lifted by elapsed time inside `verify_mfa`,
which consults no clock: whenever the counter is at least 3 every
submission returns 429 and leaves the table unchanged. The counter resets
to 0 only through a fresh `login` with valid credentials: within 15 minutes
of the last login attempt such a login returns
`429 Account temporarily locked`; once at least 15 minutes have elapsed,
the login resets the counter to 0, rotates the code, and a subsequent
correct verification succeeds. -/
theorem claim_C1 (db : Db) (email code password : String) (user : User)
    (now last : Nat) (o : Oracles)
    (hf : find_by_email db email = some user) :
    (user.mfa_attempts = 0 → code ≠ user.mfa_secret →
      find_by_email
        (verify_mfa (verify_mfa (verify_mfa db
          [("email", email), ("mfa_code", code)]).db
          [("email", email), ("mfa_code", code)]).db
          [("email", email), ("mfa_code", code)]).db email =
        some { user with mfa_attempts := 3 } ∧
      (verify_mfa (verify_mfa (verify_mfa (verify_mfa db
          [("email", email), ("mfa_code", code)]).db
          [("email", email), ("mfa_code", code)]).db
          [("email", email), ("mfa_code", code)]).db
          [("email", email), ("mfa_code", user.mfa_secret)]).resp =
        .json 429 "Too many failed attempts. Please try logging in again.") ∧
    (3 ≤ user.mfa_attempts →
      verify_mfa db [("email", email), ("mfa_code", code)] =
        ⟨db, none, [], .json 429 "Too many failed attempts. Please try logging in again."⟩) ∧
    (checkpw password user.password_hash = true → user.is_verified = true →
      3 ≤ user.mfa_attempts → user.last_login_attempt = some last → now < last + 15 →
      login db [("email", email), ("password", password)] now o =
        ⟨db, none, [], .json 429 "Account temporarily locked. Please try again later."⟩) ∧
    (checkpw password user.password_hash = true → user.is_verified = true →
      3 ≤ user.mfa_attempts → user.last_login_attempt = some last → ¬ now < last + 15 →
      find_by_email (login db [("email", email), ("password", password)] now o).db email =
        some { user with
                 mfa_attempts := 0
                 mfa_secret := o.token
                 last_login_attempt := some now } ∧
      (verify_mfa (login db [("email", email), ("password", password)] now o).db
          [("email", email), ("mfa_code", o.token)]).resp =
        .json 200 "Login successful") := by
  refine ⟨fun h0 hw => ?_, fun ha => verify_mfa_locked db email code user hf ha,
    fun hp hv ha hl ht =>
      login_locked db _ email password now o user last
        (getKey_cred _ _).1 hf (getKey_cred _ _).2 hp hv ha hl ht,
    fun hp hv ha hl ht => ?_⟩
  · have ha0 : user.mfa_attempts < 3 := by omega
    have h1 := verify_mfa_wrong db email code user hf ha0 hw
    have hf1 : find_by_email (verify_mfa db [("email", email), ("mfa_code", code)]).db email =
        some { user with mfa_attempts := user.mfa_attempts + 1 } := by
      rw [h1]
      exact find_by_email_update db _ hf rfl
    have ha1 : ({ user with mfa_attempts := user.mfa_attempts + 1 } : User).mfa_attempts < 3 := by
      simp only [h0]
      omega
    have h2 := verify_mfa_wrong _ email code _ hf1 ha1 hw
    have hf2 : find_by_email
        (verify_mfa (verify_mfa db [("email", email), ("mfa_code", code)]).db
          [("email", email), ("mfa_code", code)]).db email =
        some { user with mfa_attempts := user.mfa_attempts + 1 + 1 } := by
      rw [h2]
      exact find_by_email_update _ _ hf1 rfl
    have ha2 : ({ user with mfa_attempts := user.mfa_attempts + 1 + 1 } : User).mfa_attempts
        < 3 := by
      simp only [h0]
      omega
    have h3 := verify_mfa_wrong _ email code _ hf2 ha2 hw
    have hf3 : find_by_email
        (verify_mfa (verify_mfa (verify_mfa db [("email", email), ("mfa_code", code)]).db
          [("email", email), ("mfa_code", code)]).db
          [("email", email), ("mfa_code", code)]).db email =
        some { user with mfa_attempts := user.mfa_attempts + 1 + 1 + 1 } := by
      rw [h3]
      exact find_by_email_update _ _ hf2 rfl
    have hn : user.mfa_attempts + 1 + 1 + 1 = 3 := by omega
    rw [hn] at hf3
    refine ⟨hf3, ?_⟩
    have hlock := verify_mfa_locked _ email user.mfa_secret _ hf3 (by simp)
    rw [hlock]
  · have h := login_issue_lapsed db _ email password now o user last
      (getKey_cred _ _).1 hf (getKey_cred _ _).2 hp hv ha hl ht
    have hdb : (login db [("email", email), ("password", password)] now o).db =
        update_user db { user with
                           mfa_attempts := 0
                           mfa_secret := o.token
                           last_login_attempt := some now } := by
      rw [h]
      cases hs : o.send_ok <;> simp [hs]
    have hf2 : find_by_email (login db [("email", email), ("password", password)] now o).db
        email = some { user with
                         mfa_attempts := 0
                         mfa_secret := o.token
                         last_login_attempt := some now } := by
      rw [hdb]
      exact find_by_email_update db _ hf rfl
    refine ⟨hf2, ?_⟩
    have hver := verify_mfa_gen_correct
      (login db [("email", email), ("password", password)] now o).db
      [("email", email), ("mfa_code", o.token)] email
      { user with mfa_attempts := 0, mfa_secret := o.token, last_login_attempt := some now }
      (getKey_pair _ _).1 (getKey_pair _ _).2 hf2 (by simp)
    rw [hver]

/-- Witness for C1 at the locked fixture user: clause (ii) on a submission,
clause (iii) 10 minutes after the last login attempt, clause (iv) 20
minutes after it. -/
theorem claim_C1_witness :
    verify_mfa [uLocked] [("email", "b@x.com"), ("mfa_code", "x")] =
      ⟨[uLocked], none, [], .json 429 "Too many failed attempts. Please try logging in again."⟩ ∧
    login [uLocked] [("email", "b@x.com"), ("password", "pw")] 10 oFix =
      ⟨[uLocked], none, [], .json 429 "Account temporarily locked. Please try again later."⟩ ∧
    find_by_email (login [uLocked] [("email", "b@x.com"), ("password", "pw")] 20 oFix).db
        "b@x.com" =
      some { uLocked with
               mfa_attempts := 0
               mfa_secret := oFix.token
               last_login_attempt := some 20 } ∧
    (verify_mfa (login [uLocked] [("email", "b@x.com"), ("password", "pw")] 20 oFix).db
        [("email", "b@x.com"), ("mfa_code", oFix.token)]).resp =
      .json 200 "Login successful" := by
  refine ⟨(claim_C1 [uLocked] "b@x.com" "x" "pw" uLocked 0 0 oFix (by decide)).2.1 (by decide),
    (claim_C1 [uLocked] "b@x.com" "x" "pw" uLocked 10 0 oFix (by decide)).2.2.1
      (by decide) (by decide) (by decide) (by decide) (by decide),
    ((claim_C1 [uLocked] "b@x.com" "x" "pw" uLocked 20 0 oFix (by decide)).2.2.2
      (by decide) (by decide) (by decide) (by decide) (by decide)).1,
    ((claim_C1 [uLocked] "b@x.com" "x" "pw" uLocked 20 0 oFix (by decide)).2.2.2
      (by decide) (by decide) (by decide) (by decide) (by decide)).2⟩

/-- **C6.** `login(email, password)`: returns `401 Invalid credentials` when
the email is unknown or the password mismatches; `401 Please verify your
email first` when the user is unverified; `429 Account temporarily locked`
when the user is locked (3 or more failed attempts and fewer than 15
minutes since the last login attempt); otherwise it overwrites the pending
code with the freshly generated one, records the login attempt time,
commits that row (the MFAPending state), and — when the mail gateway
succeeds — sends the code and answers 200. The re-issue branch is covered
in all three of its forms: attempts below 3 (clauses 5-6), attempts at 3 or
more with the cooldown lapsed, in which case the counter is also reset to 0
(clauses 7-8), and attempts at 3 or more with a null `last_login_attempt`,
in which case the counter is left as it was (clauses 9-10). In each form
the previously pending, unconsumed code (distinct from the fresh one) is
rejected by `verify_mfa` afterwards — with `401 Invalid MFA code` when the
committed counter is below 3, and with 429 when it remained at 3 or more. -/
theorem claim_C6 (db : Db) (email password : String) (now last : Nat) (o : Oracles)
    (user : User) :
    (find_by_email db email = none →
      login db [("email", email), ("password", password)] now o =
        ⟨db, none, [], .json 401 "Invalid credentials"⟩) ∧
    (find_by_email db email = some user →
      checkpw password user.password_hash = false →
      login db [("email", email), ("password", password)] now o =
        ⟨db, none, [], .json 401 "Invalid credentials"⟩) ∧
    (find_by_email db email = some user →
      checkpw password user.password_hash = true → user.is_verified = false →
      login db [("email", email), ("password", password)] now o =
        ⟨db, none, [], .json 401 "Please verify your email first"⟩) ∧
    (find_by_email db email = some user →
      checkpw password user.password_hash = true → user.is_verified = true →
      3 ≤ user.mfa_attempts → user.last_login_attempt = some last → now < last + 15 →
      login db [("email", email), ("password", password)] now o =
        ⟨db, none, [], .json 429 "Account temporarily locked. Please try again later."⟩) ∧
    (find_by_email db email = some user →
      checkpw password user.password_hash = true → user.is_verified = true →
      user.mfa_attempts < 3 → o.send_ok = true →
      login db [("email", email), ("password", password)] now o =
        ⟨update_user db { user with mfa_secret := o.token, last_login_attempt := some now },
          none, [⟨email, "Your MFA code is: " ++ o.token⟩],
          .json 200 "MFA code sent to your email"⟩) ∧
    (find_by_email db email = some user →
      checkpw password user.password_hash = true → user.is_verified = true →
      user.mfa_attempts < 3 → user.mfa_secret ≠ o.token →
      (verify_mfa (login db [("email", email), ("password", password)] now o).db
          [("email", email), ("mfa_code", user.mfa_secret)]).resp =
        .json 401 "Invalid MFA code") ∧
    (find_by_email db email = some user →
      checkpw password user.password_hash = true → user.is_verified = true →
      3 ≤ user.mfa_attempts → user.last_login_attempt = some last → ¬ now < last + 15 →
      o.send_ok = true →
      login db [("email", email), ("password", password)] now o =
        ⟨update_user db { user with
                            mfa_attempts := 0
                            mfa_secret := o.token
                            last_login_attempt := some now },
          none, [⟨email, "Your MFA code is: " ++ o.token⟩],
          .json 200 "MFA code sent to your email"⟩) ∧
    (find_by_email db email = some user →
      checkpw password user.password_hash = true → user.is_verified = true →
      3 ≤ user.mfa_attempts → user.last_login_attempt = some last → ¬ now < last + 15 →
      user.mfa_secret ≠ o.token →
      (verify_mfa (login db [("email", email), ("password", password)] now o).db
          [("email", email), ("mfa_code", user.mfa_secret)]).resp =
        .json 401 "Invalid MFA code") ∧
    (find_by_email db email = some user →
      checkpw password user.password_hash = true → user.is_verified = true →
      3 ≤ user.mfa_attempts → user.last_login_attempt = none → o.send_ok = true →
      login db [("email", email), ("password", password)] now o =
        ⟨update_user db { user with mfa_secret := o.token, last_login_attempt := some now },
          none, [⟨email, "Your MFA code is: " ++ o.token⟩],
          .json 200 "MFA code sent to your email"⟩) ∧
    (find_by_email db email = some user →
      checkpw password user.password_hash = true → user.is_verified = true →
      3 ≤ user.mfa_attempts → user.last_login_attempt = none →
      (verify_mfa (login db [("email", email), ("password", password)] now o).db
          [("email", email), ("mfa_code", user.mfa_secret)]).resp =
        .json 429 "Too many failed attempts. Please try logging in again.") := by
  refine ⟨fun hn => login_no_user db _ email now o (getKey_cred _ _).1 hn,
    fun hf hp =>
      login_wrong_password db _ email password now o user
        (getKey_cred _ _).1 hf (getKey_cred _ _).2 hp,
    fun hf hp hv =>
      login_unverified db _ email password now o user
        (getKey_cred _ _).1 hf (getKey_cred _ _).2 hp hv,
    fun hf hp hv ha hl ht =>
      login_locked db _ email password now o user last
        (getKey_cred _ _).1 hf (getKey_cred _ _).2 hp hv ha hl ht,
    fun hf hp hv ha hs => ?_, fun hf hp hv ha hne => ?_,
    fun hf hp hv ha hl ht hs => ?_, fun hf hp hv ha hl ht hne => ?_,
    fun hf hp hv ha hl hs => ?_, fun hf hp hv ha hl => ?_⟩
  · rw [login_issue_fresh db _ email password now o user
      (getKey_cred _ _).1 hf (getKey_cred _ _).2 hp hv ha]
    simp [hs]
  · have hdb : (login db [("email", email), ("password", password)] now o).db =
        update_user db { user with mfa_secret := o.token, last_login_attempt := some now } := by
      rw [login_issue_fresh db _ email password now o user
        (getKey_cred _ _).1 hf (getKey_cred _ _).2 hp hv ha]
      cases hs : o.send_ok <;> simp [hs]
    have hf2 : find_by_email (login db [("email", email), ("password", password)] now o).db
        email =
        some { user with mfa_secret := o.token, last_login_attempt := some now } := by
      rw [hdb]
      exact find_by_email_update db _ hf rfl
    have hwr := verify_mfa_gen_wrong
      (login db [("email", email), ("password", password)] now o).db
      [("email", email), ("mfa_code", user.mfa_secret)] email user.mfa_secret
      { user with mfa_secret := o.token, last_login_attempt := some now }
      (getKey_pair _ _).1 (getKey_pair _ _).2 hf2 (by simpa using ha) (by simpa using hne)
    rw [hwr]
  · rw [login_issue_lapsed db _ email password now o user last
      (getKey_cred _ _).1 hf (getKey_cred _ _).2 hp hv ha hl ht]
    simp [hs]
  · have hdb : (login db [("email", email), ("password", password)] now o).db =
        update_user db { user with
                           mfa_attempts := 0
                           mfa_secret := o.token
                           last_login_attempt := some now } := by
      rw [login_issue_lapsed db _ email password now o user last
        (getKey_cred _ _).1 hf (getKey_cred _ _).2 hp hv ha hl ht]
      cases hs : o.send_ok <;> simp [hs]
    have hf2 : find_by_email (login db [("email", email), ("password", password)] now o).db
        email =
        some { user with
                 mfa_attempts := 0
                 mfa_secret := o.token
                 last_login_attempt := some now } := by
      rw [hdb]
      exact find_by_email_update db _ hf rfl
    have hwr := verify_mfa_gen_wrong
      (login db [("email", email), ("password", password)] now o).db
      [("email", email), ("mfa_code", user.mfa_secret)] email user.mfa_secret
      { user with
          mfa_attempts := 0
          mfa_secret := o.token
          last_login_attempt := some now }
      (getKey_pair _ _).1 (getKey_pair _ _).2 hf2 (by simp) (by simpa using hne)
    rw [hwr]
  · rw [login_issue_nolast db _ email password now o user
      (getKey_cred _ _).1 hf (getKey_cred _ _).2 hp hv ha hl]
    simp [hs]
  · have hdb : (login db [("email", email), ("password", password)] now o).db =
        update_user db { user with mfa_secret := o.token, last_login_attempt := some now } := by
      rw [login_issue_nolast db _ email password now o user
        (getKey_cred _ _).1 hf (getKey_cred _ _).2 hp hv ha hl]
      cases hs : o.send_ok <;> simp [hs]
    have hf2 : find_by_email (login db [("email", email), ("password", password)] now o).db
        email =
        some { user with mfa_secret := o.token, last_login_attempt := some now } := by
      rw [hdb]
      exact find_by_email_update db _ hf rfl
    have hlk := verify_mfa_gen_locked
      (login db [("email", email), ("password", password)] now o).db
      [("email", email), ("mfa_code", user.mfa_secret)] email
      { user with mfa_secret := o.token, last_login_attempt := some now }
      (getKey_pair _ _).1 hf2 (by simpa using ha)
    rw [hlk]

/-- Witness for C6: every clause at concrete data. -/
theorem claim_C6_witness :
    login [] [("email", "b@x.com"), ("password", "pw")] 0 oFix =
      ⟨[], none, [], .json 401 "Invalid credentials"⟩ ∧
    login [uFix] [("email", "b@x.com"), ("password", "nope")] 0 oFix =
      ⟨[uFix], none, [], .json 401 "Invalid credentials"⟩ ∧
    login [uReg] [("email", "a@x.com"), ("password", "p1")] 0 oFix =
      ⟨[uReg], none, [], .json 401 "Please verify your email first"⟩ ∧
    login [uLocked] [("email", "b@x.com"), ("password", "pw")] 10 oFix =
      ⟨[uLocked], none, [], .json 429 "Account temporarily locked. Please try again later."⟩ ∧
    login [uFix] [("email", "b@x.com"), ("password", "pw")] 7 oFix =
      ⟨update_user [uFix] { uFix with mfa_secret := oFix.token, last_login_attempt := some 7 },
        none, [⟨"b@x.com", "Your MFA code is: " ++ oFix.token⟩],
        .json 200 "MFA code sent to your email"⟩ ∧
    (verify_mfa (login [uFix] [("email", "b@x.com"), ("password", "pw")] 7 oFix).db
        [("email", "b@x.com"), ("mfa_code", uFix.mfa_secret)]).resp =
      .json 401 "Invalid MFA code" ∧
    login [uLocked] [("email", "b@x.com"), ("password", "pw")] 20 oFix =
      ⟨update_user [uLocked] { uLocked with
                                 mfa_attempts := 0
                                 mfa_secret := oFix.token
                                 last_login_attempt := some 20 },
        none, [⟨"b@x.com", "Your MFA code is: " ++ oFix.token⟩],
        .json 200 "MFA code sent to your email"⟩ ∧
    (verify_mfa (login [uLocked] [("email", "b@x.com"), ("password", "pw")] 20 oFix).db
        [("email", "b@x.com"), ("mfa_code", uLocked.mfa_secret)]).resp =
      .json 401 "Invalid MFA code" ∧
    login [uNoLast] [("email", "b@x.com"), ("password", "pw")] 5 oFix =
      ⟨update_user [uNoLast]
          { uNoLast with mfa_secret := oFix.token, last_login_attempt := some 5 },
        none, [⟨"b@x.com", "Your MFA code is: " ++ oFix.token⟩],
        .json 200 "MFA code sent to your email"⟩ ∧
    (verify_mfa (login [uNoLast] [("email", "b@x.com"), ("password", "pw")] 5 oFix).db
        [("email", "b@x.com"), ("mfa_code", uNoLast.mfa_secret)]).resp =
      .json 429 "Too many failed attempts. Please try logging in again." := by
  refine ⟨(claim_C6 [] "b@x.com" "pw" 0 0 oFix uFix).1 (by decide),
    (claim_C6 [uFix] "b@x.com" "nope" 0 0 oFix uFix).2.1 (by decide) (by decide),
    (claim_C6 [uReg] "a@x.com" "p1" 0 0 oFix uReg).2.2.1 (by decide) (by decide) (by decide),
    (claim_C6 [uLocked] "b@x.com" "pw" 10 0 oFix uLocked).2.2.2.1
      (by decide) (by decide) (by decide) (by decide) (by decide) (by decide),
    (claim_C6 [uFix] "b@x.com" "pw" 7 0 oFix uFix).2.2.2.2.1
      (by decide) (by decide) (by decide) (by decide) (by decide),
    (claim_C6 [uFix] "b@x.com" "pw" 7 0 oFix uFix).2.2.2.2.2.1
      (by decide) (by decide) (by decide) (by decide) (by decide),
    (claim_C6 [uLocked] "b@x.com" "pw" 20 0 oFix uLocked).2.2.2.2.2.2.1
      (by decide) (by decide) (by decide) (by decide) (by decide) (by decide) (by decide),
    (claim_C6 [uLocked] "b@x.com" "pw" 20 0 oFix uLocked).2.2.2.2.2.2.2.1
      (by decide) (by decide) (by decide) (by decide) (by decide) (by decide) (by decide),
    (claim_C6 [uNoLast] "b@x.com" "pw" 5 0 oFix uNoLast).2.2.2.2.2.2.2.2.1
      (by decide) (by decide) (by decide) (by decide) (by decide) (by decide),
    (claim_C6 [uNoLast] "b@x.com" "pw" 5 0 oFix uNoLast).2.2.2.2.2.2.2.2.2
      (by decide) (by decide) (by decide) (by decide) (by decide)⟩

theorem register_db_send_indep (db : Db) (body : Body) (o : Oracles) :
    (register db body o).db = (register db body { o with send_ok := true }).db := by
  cases hk : getKey body "email" with
  | none => simp [register, hk]
  | some email =>
    cases hf : (find_by_email db email).isSome with
    | true => simp [register, hk, hf]
    | false =>
      cases hkp : getKey body "password" with
      | none => simp [register, hk, hf, hkp]
      | some password => cases hs : o.send_ok <;> simp [register, hk, hf, hkp, hs]

theorem login_db_send_indep (db : Db) (body : Body) (now : Nat) (o : Oracles) :
    (login db body now o).db = (login db body now { o with send_ok := true }).db := by
  cases hk : getKey body "email" with
  | none => simp [login, hk]
  | some email =>
    cases hf : find_by_email db email with
    | none => simp [login, hk, hf]
    | some user =>
      cases hkp : getKey body "password" with
      | none => simp [login, hk, hf, hkp]
      | some password =>
        cases hp : checkpw password user.password_hash with
        | false => simp [login, hk, hf, hkp, hp]
        | true =>
          cases hv : user.is_verified with
          | false => simp [login, hk, hf, hkp, hp, hv]
          | true =>
            rcases Nat.lt_or_ge user.mfa_attempts 3 with ha | ha
            · rw [login_issue_fresh db body email password now o user hk hf hkp hp hv ha,
                login_issue_fresh db body email password now { o with send_ok := true }
                  user hk hf hkp hp hv ha]
              cases hs : o.send_ok <;> simp [hs]
            · cases hl : user.last_login_attempt with
              | none =>
                rw [login_issue_nolast db body email password now o user hk hf hkp hp hv ha hl,
                  login_issue_nolast db body email password now { o with send_ok := true }
                    user hk hf hkp hp hv ha hl]
                cases hs : o.send_ok <;> simp [hs]
              | some last =>
                rcases Nat.lt_or_ge now (last + 15) with ht | ht
                · rw [login_locked db body email password now o user last
                      hk hf hkp hp hv ha hl ht,
                    login_locked db body email password now { o with send_ok := true }
                      user last hk hf hkp hp hv ha hl ht]
                · have ht' : ¬ now < last + 15 := Nat.not_lt.mpr ht
                  rw [login_issue_lapsed db body email password now o user last
                      hk hf hkp hp hv ha hl ht',
                    login_issue_lapsed db body email password now { o with send_ok := true }
                      user last hk hf hkp hp hv ha hl ht']
                  cases hs : o.send_ok <;> simp [hs]

/-- **C8 counterexample.** With a failing mail gateway, `register` commits
the new user row before attempting the send — the committed row survives —
but the failure propagates out of the handler as an uncaught exception
(Flask answers 500): nothing catches it, logs it, or reports a structured
DeliveryError, and the operation's success response is lost even though the
state transition persisted. This refutes "a send failure ... is reported as
a delivery error distinct from an auth error". -/
theorem claim_C8_counterexample :
    (register [] [("email", "a@x.com"), ("password", "p1")] oFail).resp =
      .raised "MailSendError" ∧
    find_by_email (register [] [("email", "a@x.com"), ("password", "p1")] oFail).db
        "a@x.com" = some uReg := by
  decide

/-- **C8 (amended).** For register and login the notification send is
issued only after the user-record mutation has been committed, and a send
failure rolls nothing back: the resulting table is identical whether the
send succeeds or fails. The failure, however, is not reported as a
structured delivery error distinct from an auth error: the exception
escapes the handler uncaught (an HTTP 500), so the request fails even
though the committed state transition persists. -/
theorem claim_C8 (db : Db) (body : Body) (email password : String) (now : Nat)
    (o : Oracles) (user : User) :
    ((register db body o).db = (register db body { o with send_ok := true }).db) ∧
    ((login db body now o).db = (login db body now { o with send_ok := true }).db) ∧
    (getKey body "email" = some email → getKey body "password" = some password →
      find_by_email db email = none → o.send_ok = false →
      register db body o =
        ⟨db ++ [{ email := email, password_hash := hashpw password o.salt,
                  mfa_secret := o.token, is_verified := false, mfa_attempts := 0,
                  last_login_attempt := none }], none, [], .raised "MailSendError"⟩) ∧
    (getKey body "email" = some email → getKey body "password" = some password →
      find_by_email db email = some user →
      checkpw password user.password_hash = true → user.is_verified = true →
      user.mfa_attempts < 3 → o.send_ok = false →
      login db body now o =
        ⟨update_user db { user with mfa_secret := o.token, last_login_attempt := some now },
          none, [], .raised "MailSendError"⟩) := by
  refine ⟨register_db_send_indep db body o, login_db_send_indep db body now o,
    fun hk hkp hfn hs => ?_, fun hk hkp hf hp hv ha hs => ?_⟩
  · simp [register, hk, hkp, hfn, hs]
  · rw [login_issue_fresh db body email password now o user hk hf hkp hp hv ha]
    simp [hs]

/-- Witness for C8 with the failing mail gateway fixture. -/
theorem claim_C8_witness :
    (register [] [("email", "a@x.com"), ("password", "p1")] oFail).db =
      (register [] [("email", "a@x.com"), ("password", "p1")]
          { oFail with send_ok := true }).db ∧
    register [] [("email", "a@x.com"), ("password", "p1")] oFail =
      ⟨[] ++ [{ email := "a@x.com", password_hash := hashpw "p1" oFail.salt,
                mfa_secret := oFail.token, is_verified := false, mfa_attempts := 0,
                last_login_attempt := none }], none, [], .raised "MailSendError"⟩ ∧
    login [uFix] [("email", "b@x.com"), ("password", "pw")] 7 oFail =
      ⟨update_user [uFix]
          { uFix with mfa_secret := oFail.token, last_login_attempt := some 7 },
        none, [], .raised "MailSendError"⟩ :=
  ⟨(claim_C8 [] [("email", "a@x.com"), ("password", "p1")] "a@x.com" "p1" 0 oFail uFix).1,
   (claim_C8 [] [("email", "a@x.com"), ("password", "p1")] "a@x.com" "p1" 0 oFail uFix).2.2.1
     (by decide) (by decide) (by decide) (by decide),
   (claim_C8 [uFix] [("email", "b@x.com"), ("password", "pw")] "b@x.com" "pw" 7
       oFail uFix).2.2.2
     (by decide) (by decide) (by decide) (by decide) (by decide) (by decide) (by decide)⟩

theorem register_db_mem (db : Db) (body : Body) (o : Oracles) (v : User)
    (hv : v ∈ (register db body o).db) : v ∈ db ∨ v.is_verified = false := by
  cases hk : getKey body "email" with
  | none =>
    simp [register, hk] at hv
    exact Or.inl hv
  | some email =>
    cases hf : (find_by_email db email).isSome with
    | true =>
      simp [register, hk, hf] at hv
      exact Or.inl hv
    | false =>
      cases hkp : getKey body "password" with
      | none =>
        simp [register, hk, hf, hkp] at hv
        exact Or.inl hv
      | some password =>
        have hv' : v ∈ db ++
            [{ email := email, password_hash := hashpw password o.salt,
               mfa_secret := o.token, is_verified := false, mfa_attempts := 0,
               last_login_attempt := none }] := by
          cases hs : o.send_ok <;> simpa [register, hk, hf, hkp, hs] using hv
        rcases List.mem_append.mp hv' with h | h
        · exact Or.inl h
        · right
          rw [List.mem_singleton.mp h]

theorem verify_mfa_db_mem (db : Db) (body : Body) (v : User)
    (hv : v ∈ (verify_mfa db body).db) :
    v ∈ db ∨ ∃ u, u ∈ db ∧ v.is_verified = u.is_verified := by
  cases hk : getKey body "email" with
  | none =>
    simp [verify_mfa, hk] at hv
    exact Or.inl hv
  | some email =>
    cases hf : find_by_email db email with
    | none =>
      simp [verify_mfa, hk, hf] at hv
      exact Or.inl hv
    | some user =>
      rcases Nat.lt_or_ge user.mfa_attempts 3 with ha | ha
      · cases hkc : getKey body "mfa_code" with
        | none =>
          have h3 : ¬ (3 ≤ user.mfa_attempts) := Nat.not_le.mpr ha
          simp [verify_mfa, hk, hf, hkc, h3] at hv
          exact Or.inl hv
        | some code =>
          by_cases hc : code = user.mfa_secret
          · subst hc
            rw [verify_mfa_gen_correct db body email user hk hkc hf ha] at hv
            rcases mem_update_user hv with h | h
            · exact Or.inr ⟨user, find_by_email_mem hf, by rw [h]⟩
            · exact Or.inl h
          · rw [verify_mfa_gen_wrong db body email code user hk hkc hf ha hc] at hv
            rcases mem_update_user hv with h | h
            · exact Or.inr ⟨user, find_by_email_mem hf, by rw [h]⟩
            · exact Or.inl h
      · rw [verify_mfa_gen_locked db body email user hk hf ha] at hv
        exact Or.inl hv

theorem login_all_unverified (db : Db) (body : Body) (now : Nat) (o : Oracles)
    (hinv : ∀ u ∈ db, u.is_verified = false) :
    (login db body now o).db = db ∧
    (login db body now o).resp ≠ .json 200 "MFA code sent to your email" ∧
    (login db body now o).resp ≠ .raised "MailSendError" := by
  cases hk : getKey body "email" with
  | none => simp [login, hk]
  | some email =>
    cases hf : find_by_email db email with
    | none => simp [login, hk, hf]
    | some user =>
      cases hkp : getKey body "password" with
      | none => simp [login, hk, hf, hkp]
      | some password =>
        cases hp : checkpw password user.password_hash with
        | false => simp [login, hk, hf, hkp, hp]
        | true =>
          have hunv : user.is_verified = false := hinv user (find_by_email_mem hf)
          simp [login, hk, hf, hkp, hp, hunv]

/-- **C9.** No API operation sets `is_verified`: if every user in the table
is unverified (as every user created by `register` is — the verification
token is generated inside `send_verification_email` and never stored, and
no verification route exists in `ApiOp`), then after any API request every
user is still unverified. Moreover a password-correct login for such a user
returns `401 Please verify your email first`, and no login against such a
table can ever reach MFA issuance (no "MFA code sent" response). -/
theorem claim_C9 (now : Nat) (o : Oracles) (ml : Bool) (gt : String) (s : Sys)
    (op : ApiOp) (email password : String) (user : User)
    (hinv : ∀ u ∈ s.db, u.is_verified = false) :
    (∀ u ∈ (apiStep now o ml gt s op).1.db, u.is_verified = false) ∧
    (find_by_email s.db email = some user → checkpw password user.password_hash = true →
      login s.db [("email", email), ("password", password)] now o =
        ⟨s.db, none, [], .json 401 "Please verify your email first"⟩) ∧
    (∀ body, (login s.db body now o).resp ≠ .json 200 "MFA code sent to your email") := by
  refine ⟨?_, fun hf hp =>
      login_unverified s.db _ email password now o user
        (getKey_cred _ _).1 hf (getKey_cred _ _).2 hp
        (hinv user (find_by_email_mem hf)),
    fun body => (login_all_unverified s.db body now o hinv).2.1⟩
  cases op with
  | register body =>
    cases hp2 : (rate_limit 5 15 now s.rl).2 with
    | false =>
      simp only [apiStep, hp2, if_neg (Bool.false_ne_true)]
      exact hinv
    | true =>
      simp only [apiStep, hp2, if_pos rfl]
      intro u hu
      rcases register_db_mem s.db body o u hu with h | h
      · exact hinv u h
      · exact h
  | login body =>
    cases hp2 : (rate_limit 5 15 now s.rl).2 with
    | false =>
      simp only [apiStep, hp2, if_neg (Bool.false_ne_true)]
      exact hinv
    | true =>
      simp only [apiStep, hp2, if_pos rfl]
      rw [(login_all_unverified s.db body now o hinv).1]
      exact hinv
  | verifyMfa body =>
    cases hp2 : (rate_limit 5 15 now s.rl).2 with
    | false =>
      simp only [apiStep, hp2, if_neg (Bool.false_ne_true)]
      exact hinv
    | true =>
      simp only [apiStep, hp2, if_pos rfl]
      intro u hu
      rcases verify_mfa_db_mem s.db body u hu with h | ⟨w, hw, he⟩
      · exact hinv u h
      · rw [he]
        exact hinv w hw
  | chat body =>
    cases hc : s.current_user with
    | none =>
      simp only [apiStep, hc]
      exact hinv
    | some e =>
      cases ml <;> simp only [apiStep, hc, Bool.false_eq_true, if_true, if_false] <;>
        exact hinv
  | logout =>
    cases hc : s.current_user with
    | none =>
      simp only [apiStep, hc]
      exact hinv
    | some e =>
      simp only [apiStep, hc]
      exact hinv

/-- Witness for C9: a table holding one API-registered (hence unverified)
user — a password-correct login is refused with the verification error, and
an MFA verification step leaves the user unverified. -/
theorem claim_C9_witness :
    login dReg [("email", "a@x.com"), ("password", "p1")] 0 oFix =
      ⟨dReg, none, [], .json 401 "Please verify your email first"⟩ ∧
    ({ uReg with mfa_attempts := 0 } : User).is_verified = false :=
  ⟨(claim_C9 0 oFix true "hi" ⟨dReg, none, none⟩
      (.verifyMfa [("email", "a@x.com"), ("mfa_code", "tokA")])
      "a@x.com" "p1" uReg (by decide)).2.1 (by decide) (by decide),
   (claim_C9 0 oFix true "hi" ⟨dReg, none, none⟩
      (.verifyMfa [("email", "a@x.com"), ("mfa_code", "tokA")])
      "a@x.com" "p1" uReg (by decide)).1 { uReg with mfa_attempts := 0 } (by decide)⟩

end CodeBloom
